import Mathlib

/-!
Shallow embedding of the AI Prosthetic Optimizer backend
(`backend/optimizer.py`, `backend/dfm_rules.py`, `backend/app.py`) and
verification of the specification's claims about it.

Conventions of the embedding:
* Python floats are modelled as rationals (`ℚ`); the float constant `np.pi`
  is modelled by its decimal literal.
* The surrogate models are opaque predictors `Params → ℚ`; the ensemble mean
  is taken over a list of them, exactly as `predict_with_uncertainty` does.
* Fallible calls (`calculate_manufacturing_cost`, file reads) are modelled
  with `Except` / explicit file-state inductives, mirroring the `try/except`
  structure of the source.
-/

namespace ProstheticOptimizer

/-- Python's `round` uses round-half-to-even banker's rounding; this is the
integer-valued core of it on rationals. -/
def roundHalfToEven (x : ℚ) : ℤ :=
  let n := ⌊x⌋
  let frac := x - n
  if frac < 1/2 then n
  else if 1/2 < frac then n + 1
  else if n % 2 = 0 then n else n + 1

/-- Python's `round(x, ndigits)` on our rational model of floats. -/
def pyRound (ndigits : ℕ) (x : ℚ) : ℚ :=
  (roundHalfToEven (x * 10 ^ ndigits) : ℚ) / 10 ^ ndigits

/-- Material record as resolved by `material_library.get_material`
(fields used by the optimizer; `youngs_modulus` is unused there). -/
structure Material where
  density : ℚ
  yield_strength : ℚ
  cost_per_kg : ℚ
  co2_per_kg : ℚ
deriving DecidableEq

/-- The 7-field design-parameter record built per individual in
`BracketOptimizationProblem._evaluate` (`rib_count` is `int(round(·))`). -/
structure Params where
  base_length : ℚ
  base_width : ℚ
  base_thickness : ℚ
  rib_count : ℤ
  rib_thickness : ℚ
  fillet_radius : ℚ
  hole_diameter : ℚ
deriving DecidableEq

/-! ### DFM rules (`dfm_rules.check_dfm_rules`) -/

/-- Rule 3 of `check_dfm_rules`: `min(standard_sizes, key=lambda x: abs(x - hd))`
over `[3, 4, 5, 6, 8]`; Python's `min` keeps the first element attaining the
minimal key, so later elements replace only on a strictly smaller key. -/
def closestStandardSize (hd : ℚ) : ℚ :=
  [4, 5, 6, 8].foldl (fun best x => if |x - hd| < |best - hd| then x else best) 3

/-- Tags for the violation messages appended by `check_dfm_rules`
(the message strings themselves carry no further logic). -/
inductive DfmViolation where
  | base_thickness_min
  | rib_thickness_min
  | hole_not_standard
  | fillet_radius_min
  | rib_spacing_min
  | hole_edge_clearance
deriving DecidableEq

/-- Tags for the warning messages appended by `check_dfm_rules`. -/
inductive DfmWarning where
  | base_thickness_warp
  | rib_count_max
  | aspect_over_three
  | thin_rib_support
  | thick_base_warp
deriving DecidableEq

/-- Rule 5 of `check_dfm_rules`: `base_length / (rib_count + 1)`. -/
def ribSpacing (p : Params) : ℚ :=
  p.base_length / ((p.rib_count : ℚ) + 1)

/-- Return value of `check_dfm_rules`. -/
structure DfmResult where
  is_valid : Bool
  violations : List DfmViolation
  warnings : List DfmWarning
deriving DecidableEq

/-- `dfm_rules.check_dfm_rules`: rules 1-10 in source order;
`is_valid = (len(violations) == 0)`. -/
def check_dfm_rules (p : Params) : DfmResult :=
  let violations :=
    (if p.base_thickness < 2 then [DfmViolation.base_thickness_min] else []) ++
    (if p.rib_thickness < 3/2 then [DfmViolation.rib_thickness_min] else []) ++
    (if 1/2 < |p.hole_diameter - closestStandardSize p.hole_diameter| then
      [DfmViolation.hole_not_standard] else []) ++
    (if p.fillet_radius < 1 then [DfmViolation.fillet_radius_min] else []) ++
    (if 0 < p.rib_count ∧ ribSpacing p < 10 then [DfmViolation.rib_spacing_min] else []) ++
    (if p.base_width / 2 - p.hole_diameter < p.hole_diameter * 2 then
      [DfmViolation.hole_edge_clearance] else [])
  let warnings :=
    (if 8 < p.base_thickness then [DfmWarning.base_thickness_warp] else []) ++
    (if 5 < p.rib_count then [DfmWarning.rib_count_max] else []) ++
    (if 3 < p.base_length / p.base_width then [DfmWarning.aspect_over_three] else []) ++
    (if p.rib_thickness < 2 ∧ (20 : ℚ) < 20 then [DfmWarning.thin_rib_support] else []) ++
    (if 6 < p.base_thickness then [DfmWarning.thick_base_warp] else [])
  ⟨violations.isEmpty, violations, warnings⟩

/-! ### Problem evaluation (`BracketOptimizationProblem._evaluate`) -/

/-- Mean component of `predict_with_uncertainty`: `predictions.mean()` over the
ensemble members' point predictions (the std component needs a square root and
is not used by any constraint or objective). -/
def ensemble_mean (models : List (Params → ℚ)) (p : Params) : ℚ :=
  ((models.map (fun m => m p)).sum) / models.length

/-- `self.safety_factor_target = 1.5` set in `BracketOptimizationProblem.__init__`. -/
def safety_factor_target : ℚ := 3/2

/-- `self.max_deflection = 1.0` set in `BracketOptimizationProblem.__init__`. -/
def max_deflection : ℚ := 1

/-- Per-run evaluation context of `BracketOptimizationProblem`: the resolved
material, the two model ensembles, and the external cost estimator
(`calculate_manufacturing_cost`, which may raise — hence `Except`). -/
structure EvalEnv where
  material : Material
  stressModels : List (Params → ℚ)
  deflectionModels : List (Params → ℚ)
  costEstimator : Params → Except String ℚ

/-- One individual's slice of the `_evaluate` output arrays
`f1, f2, g1, g2, g3`. -/
structure EvalOutput where
  mass : ℚ
  cost : ℚ
  g1 : ℚ
  g2 : ℚ
  g3 : ℚ
deriving DecidableEq

/-- Body of the per-individual loop of `BracketOptimizationProblem._evaluate`
(`optimizer.py` lines 157-205), translated clause by clause. -/
def evaluateIndividual (env : EvalEnv) (p : Params) : EvalOutput :=
  let stress := ensemble_mean env.stressModels p
  let deflection := ensemble_mean env.deflectionModels p
  let base_volume := p.base_length * p.base_width * p.base_thickness / 1000
  let rib_volume := p.rib_thickness * p.base_width * 20 * (p.rib_count : ℚ) / 1000
  let total_volume := base_volume + rib_volume
  let mass := total_volume * env.material.density
  let cost :=
    match env.costEstimator p with
    | Except.ok c => c
    | Except.error _ => mass * env.material.cost_per_kg / 1000 + 10
  let dfm := check_dfm_rules p
  { mass := mass
    cost := cost
    g1 := stress - env.material.yield_strength / safety_factor_target
    g2 := deflection - max_deflection
    g3 := if dfm.is_valid then 0 else 1 }

/-- The batch loop of `_evaluate`: each row of `X` is evaluated independently;
a failure of the cost estimator for one row is absorbed inside
`evaluateIndividual` and never aborts the rest of the batch. -/
def evaluateBatch (env : EvalEnv) (X : List Params) : List EvalOutput :=
  X.map (evaluateIndividual env)

/-- The float value of `np.pi` used by the repository's hole-volume formula,
modelled by its decimal literal. -/
def np_pi : ℚ := 3.141592653589793

/-- Modelled from the spec's words (refinement target for the mass claim):
mass computed with the hole volume subtracted, the hole volume being the
cylinder `π·(hole_diameter/2)²·base_thickness/1000` that the repository's cost
formula (`cost_estimator.py` line 41) associates with `hole_diameter`. The
optimizer's own mass computation is `evaluateIndividual`; this definition
exists only to be compared against it. -/
def massWithHoleSubtracted (mat : Material) (p : Params) : ℚ :=
  (p.base_length * p.base_width * p.base_thickness / 1000 +
   p.rib_thickness * p.base_width * 20 * (p.rib_count : ℚ) / 1000 -
   np_pi * (p.hole_diameter / 2) ^ 2 * p.base_thickness / 1000) * mat.density

/-! ### Result packaging (`run_optimization`, lines 338-403) -/

/-- The `id` and `mass` fields of a reported Pareto-front design entry
(`design_entry` in `run_optimization`; the remaining reporting fields do not
interact with identifier assignment or ordering). -/
structure ParetoEntry where
  id : ℕ
  mass : ℚ
deriving DecidableEq

/-- `sorted(pareto_solutions, key=lambda x: x['mass'])`: Python's `sorted` is a
stable ascending sort by the key; `insertionSort` with `≤` on the key is the
same stable sort. -/
def sortByMass (entries : List ParetoEntry) : List ParetoEntry :=
  List.insertionSort (fun a b => a.mass ≤ b.mass) entries

/-- Packaging loop of `run_optimization`: entry `i` gets `'id': i` and
`'mass': round(result.F[i, 0], 2)` in the pre-sort enumeration order of the
final front, and only afterwards is the list sorted by mass. -/
def packageParetoFront (masses : List ℚ) : List ParetoEntry :=
  sortByMass (masses.enum.map (fun e => ⟨e.1, pyRound 2 e.2⟩))

/-! ### Aleatoric sigma (`_get_global_stress_sigma`) -/

/-- Observable states of the reference training dataset
`data/training_data.csv` as distinguished by `_get_global_stress_sigma`. -/
inductive TrainingData where
  | missing
  | unreadable
  | emptyData
  | ok (residualSigma : ℚ)
deriving DecidableEq

/-- `_get_global_stress_sigma`: missing file → default `5.0`; a read failure or
an empty dataset lands in the `except` branch, which sets the module-level
sigma to `None` and only prints a warning; a readable non-empty dataset yields
the residual standard deviation (abstracted as the value carried by `ok`). -/
def get_global_stress_sigma (d : TrainingData) : Option ℚ :=
  match d with
  | TrainingData.missing => some 5
  | TrainingData.unreadable => none
  | TrainingData.emptyData => none
  | TrainingData.ok residualSigma => some residualSigma

/-! ### Full run (`run_optimization`) -/

/-- Request-level inputs of `run_optimization`. -/
structure RunInputs where
  load : ℚ
  material_name : String
  pop_size : ℕ
  n_gen : ℕ
deriving DecidableEq

/-- NSGA-II configuration fixed in `run_optimization`: `pop_size`,
`SBX(prob=0.9, eta=15)`, `PM(eta=20)`, `eliminate_duplicates=True`. -/
structure AlgoConfig where
  pop_size : ℕ
  crossover_prob : ℚ
  crossover_eta : ℕ
  mutation_eta : ℕ
  eliminate_duplicates : Bool
deriving DecidableEq

/-- Final state returned by the library's `minimize` call: the non-dominated
designs `X`, their objective values `F`, and the number of surrogate
evaluations the engine actually performed (which need not equal
`pop_size * n_gen`: the initial population is also evaluated and duplicate
elimination can shrink offspring batches). -/
structure SearchOutcome where
  X : List Params
  F : List (ℚ × ℚ)
  nEvalsActual : ℕ

/-- Process environment of `run_optimization`: material lookup
(`get_material`, raising for unknown names), the two loaded ensembles, the
cost estimator, the training-dataset state, and the deterministic search
engine (`pymoo.minimize` as a function of configuration, batch evaluator,
generation count and seed). -/
structure RunEnv where
  getMaterial : String → Option Material
  stressModels : List (Params → ℚ)
  deflectionModels : List (Params → ℚ)
  costEstimator : Params → Except String ℚ
  trainingData : TrainingData
  search : AlgoConfig → (List Params → List EvalOutput) → ℕ → ℕ → SearchOutcome

/-- The result dictionary returned by `run_optimization` (lines 422-429);
`mentor_log`/`mentor_summary` are presentation strings with no claim about
them. -/
structure RunResult where
  pareto_front : List ParetoEntry
  n_generations : ℕ
  n_evaluations : ℕ
  stress_sigma : Option ℚ
deriving DecidableEq

/-- `seed=42` passed verbatim to `minimize` in `run_optimization` (line 325). -/
def optimizationSeed : ℕ := 42

/-- `run_optimization`: resolve the material (raising for unknown names), run
the seeded search, package and mass-sort the front, and report
`n_evaluations = pop_size * n_gen` and the (optionally absent) global sigma
rounded to 4 digits. -/
def run_optimization (env : RunEnv) (i : RunInputs) : Except String RunResult :=
  match env.getMaterial i.material_name with
  | none => Except.error ("Material " ++ i.material_name ++ " not found")
  | some mat =>
    let evalEnv : EvalEnv := ⟨mat, env.stressModels, env.deflectionModels, env.costEstimator⟩
    let globalSigma := get_global_stress_sigma env.trainingData
    let algo : AlgoConfig := ⟨i.pop_size, 9/10, 15, 20, true⟩
    let outcome := env.search algo (evaluateBatch evalEnv) i.n_gen optimizationSeed
    let front := packageParetoFront (outcome.F.map Prod.fst)
    Except.ok
      { pareto_front := front
        n_generations := i.n_gen
        n_evaluations := i.pop_size * i.n_gen
        stress_sigma := globalSigma.map (pyRound 4) }

/-! ### Request hashing and disk cache (`app.py`) -/

/-- JSON scalar values appearing in the request payload. -/
inductive JsonVal where
  | num (q : ℚ)
  | str (s : String)
deriving DecidableEq

/-- Key lookup in an association list, i.e. access to the Python dict the
payload literal builds (first binding of a key wins). -/
def lookupKey (k : String) : List (String × JsonVal) → Option JsonVal
  | [] => none
  | kv :: rest => if kv.1 = k then some kv.2 else lookupKey k rest

/-- The `payload` dict literal of `_compute_request_hash`, as an association
list in its insertion order, with `'load': round(load, 4)`. -/
def payloadFields (load : ℚ) (material : String) (pop_size n_gen : ℕ) :
    List (String × JsonVal) :=
  [("load", JsonVal.num (pyRound 4 load)),
   ("material", JsonVal.str material),
   ("pop_size", JsonVal.num (pop_size : ℚ)),
   ("n_gen", JsonVal.num (n_gen : ℚ))]

/-- `json.dumps(payload, sort_keys=True)`: the serialized form lists each key's
value in ascending key order ("load" < "material" < "n_gen" < "pop_size"),
independent of dict insertion order. -/
def canonicalDump (fields : List (String × JsonVal)) :
    List (String × Option JsonVal) :=
  [("load", lookupKey "load" fields),
   ("material", lookupKey "material" fields),
   ("n_gen", lookupKey "n_gen" fields),
   ("pop_size", lookupKey "pop_size" fields)]

/-- `_compute_request_hash`: SHA-1 of the canonical serialization. `hashlib`'s
digest is an arbitrary deterministic function of the serialized bytes, so it is
abstracted as a function argument. -/
def compute_request_hash (hash : List (String × Option JsonVal) → String)
    (load : ℚ) (material : String) (pop_size n_gen : ℕ) : String :=
  hash (canonicalDump (payloadFields load material pop_size n_gen))

/-- Observable states of the on-disk cache file for a request key. -/
inductive CacheFile where
  | absent
  | unreadable
  | valid (results : RunResult)

/-- `_load_cached_results`: any exception while opening or parsing the file
(including a missing file) is caught, a warning is printed, and `None` is
returned; a well-formed payload yields its `results`. -/
def load_cached_results : CacheFile → Option RunResult
  | CacheFile.absent => none
  | CacheFile.unreadable => none
  | CacheFile.valid r => some r

/-- Response of the `/api/optimize` route: whether it was served from cache,
and the result payload. -/
structure OptimizeResponse where
  cached : Bool
  results : RunResult
deriving DecidableEq

/-- Cache branch of the `optimize` route (`app.py` lines 175-195): when the
cache file exists, try to load it; a successful load is returned with
`cached=True`; a failed load falls through ("Cache invalid, recomputing") to
the same fresh computation as a plain miss. Only `run_optimization` itself can
produce the route's error path. -/
def handleOptimize (cache : CacheFile) (env : RunEnv) (i : RunInputs) :
    Except String OptimizeResponse :=
  match cache with
  | CacheFile.absent => (run_optimization env i).map (fun r => ⟨false, r⟩)
  | c =>
    match load_cached_results c with
    | some r => Except.ok ⟨true, r⟩
    | none => (run_optimization env i).map (fun r => ⟨false, r⟩)

/-! ### Concrete fixtures for witnesses and counterexamples -/

/-- PLA-like material record (density g/cm³, yield strength MPa, ₹/kg, CO₂/kg). -/
def pla : Material := ⟨5/4, 50, 800, 2⟩

/-- A mid-range design vector. -/
def pDemo : Params := ⟨50, 30, 3, 3, 5/2, 2, 5⟩

/-- A design vector with `rib_count` at its lower bound 2 (Scenario D). -/
def pRibLow : Params := ⟨50, 30, 3, 2, 5/2, 2, 5⟩

/-- Default used for safe list indexing in statements. -/
def paramsDefault : Params := ⟨0, 0, 0, 0, 0, 0, 0⟩

/-- Default used for safe list indexing in statements. -/
def evalOutputDefault : EvalOutput := ⟨0, 0, 0, 0, 0⟩

/-- Evaluation context with constant surrogate predictors and a succeeding
cost estimator. -/
def envEvalDemo : EvalEnv := ⟨pla, [fun _ => 10], [fun _ => 1/2], fun _ => Except.ok 0⟩

/-- Evaluation context whose cost estimator always raises. -/
def envEvalFail : EvalEnv :=
  ⟨pla, [fun _ => 10], [fun _ => 1/2], fun _ => Except.error "cost failed"⟩

/-- A deterministic search stub returning one front member of mass 5 and an
actual evaluation count (7) unrelated to `pop_size * n_gen`. -/
def searchDemo : AlgoConfig → (List Params → List EvalOutput) → ℕ → ℕ → SearchOutcome :=
  fun _ _ _ _ => ⟨[pDemo], [(5, 20)], 7⟩

/-- A run environment resolving only "PLA", with an empty training dataset. -/
def envRunDemo : RunEnv :=
  ⟨fun s => if s = "PLA" then some pla else none, [fun _ => 10], [fun _ => 1/2],
   fun _ => Except.ok 0, TrainingData.emptyData, searchDemo⟩

/-- Scenario-A-like inputs. -/
def inDemo : RunInputs := ⟨50, "PLA", 10, 5⟩

/-- The result `run_optimization envRunDemo inDemo` evaluates to. -/
def runResultDemo : RunResult := ⟨[⟨0, 5⟩], 5, 50, none⟩

/-- A concrete stand-in for the SHA-1 digest function. -/
def hashDemo : List (String × Option JsonVal) → String := fun _ => "digest"

/-- Payload fields of a demo request, in reversed insertion order. -/
def fieldsDemo : List (String × JsonVal) :=
  (payloadFields (3333/10000) "PLA" 10 5).reverse

instance : IsTotal ParetoEntry (fun a b => a.mass ≤ b.mass) :=
  ⟨fun a b => le_total a.mass b.mass⟩

instance : IsTrans ParetoEntry (fun a b => a.mass ≤ b.mass) :=
  ⟨fun _ _ _ h1 h2 => le_trans h1 h2⟩

/-! ### Helper lemmas -/

/-- Key lookup in a duplicate-free association list is invariant under
permutation of the bindings. -/
theorem lookupKey_perm {l₁ l₂ : List (String × JsonVal)} (hp : l₁.Perm l₂)
    (hnd : (l₁.map Prod.fst).Nodup) (k : String) :
    lookupKey k l₁ = lookupKey k l₂ := by
  induction hp with
  | nil => rfl
  | cons x p ih =>
    simp only [List.map_cons, List.nodup_cons] at hnd
    simp only [lookupKey]
    rw [ih hnd.2]
  | swap x y l =>
    simp only [List.map_cons, List.nodup_cons, List.mem_cons] at hnd
    have hxy : y.1 ≠ x.1 := fun h => hnd.1 (Or.inl h)
    simp only [lookupKey]
    by_cases h1 : y.1 = k
    · by_cases h2 : x.1 = k
      · exact absurd (h1.trans h2.symm) hxy
      · simp [h1, h2]
    · by_cases h2 : x.1 = k <;> simp [h1, h2]
  | trans p₁ p₂ ih₁ ih₂ =>
    rw [ih₁ hnd, ih₂ (((p₁.map Prod.fst).nodup_iff).mp hnd)]

/-- When the cost estimator raises for an individual, its cost is the
deterministic fallback `mass * cost_per_kg / 1000 + 10`. -/
theorem evaluateIndividual_cost_of_error (env : EvalEnv) (p : Params) (e : String)
    (h : env.costEstimator p = Except.error e) :
    (evaluateIndividual env p).cost =
      (evaluateIndividual env p).mass * env.material.cost_per_kg / 1000 + 10 := by
  simp [evaluateIndividual, h]

/-- Rounding to 2 decimals fixes the integer 5. -/
theorem pyRound_two_five : pyRound 2 5 = 5 := by
  norm_num [pyRound, roundHalfToEven]

/-- Rounding to 2 decimals fixes the integer 3. -/
theorem pyRound_two_three : pyRound 2 3 = 3 := by
  norm_num [pyRound, roundHalfToEven]

/-- Concrete evaluation of the demo run. -/
theorem run_demo_eval : run_optimization envRunDemo inDemo = Except.ok runResultDemo := by
  norm_num [run_optimization, envRunDemo, inDemo, runResultDemo, searchDemo,
    packageParetoFront, sortByMass, get_global_stress_sigma, List.enum, List.enumFrom,
    pyRound_two_five]

/-! ### Claims -/

/-- C1 (counterexample): the claim says the mass objective subtracts the hole
volume; but at a concrete design the mass computed by `_evaluate` differs from
(base volume + rib volume − hole volume) · density, because `_evaluate` never
subtracts the hole volume. -/
theorem C1_counterexample :
    (evaluateIndividual envEvalDemo pDemo).mass ≠ massWithHoleSubtracted pla pDemo := by
  norm_num [evaluateIndividual, massWithHoleSubtracted, envEvalDemo, pDemo, pla, np_pi]

/-- C1 (amended): for every evaluated candidate, the mass objective equals
(base volume + rib volume) · density, with base volume
`base_length·base_width·base_thickness/1000` and rib volume
`rib_thickness·base_width·20·rib_count/1000`; no hole volume is subtracted. -/
theorem C1_mass_formula (env : EvalEnv) (p : Params) :
    (evaluateIndividual env p).mass =
      (p.base_length * p.base_width * p.base_thickness / 1000 +
       p.rib_thickness * p.base_width * 20 * (p.rib_count : ℚ) / 1000) *
        env.material.density := rfl

/-- C2: for every evaluated individual, g1 = stress ensemble mean −
yield_strength/1.5, g2 = deflection ensemble mean − 1.0, g3 = 0 iff the
manufacturability check passes (else 1), and each constraint value is ≤ 0
exactly when the corresponding condition is satisfied. -/
theorem C2_constraints (env : EvalEnv) (p : Params) :
    (evaluateIndividual env p).g1 =
      ensemble_mean env.stressModels p - env.material.yield_strength / (3/2) ∧
    (evaluateIndividual env p).g2 = ensemble_mean env.deflectionModels p - 1 ∧
    (evaluateIndividual env p).g3 =
      (if (check_dfm_rules p).is_valid then 0 else 1) ∧
    ((evaluateIndividual env p).g1 ≤ 0 ↔
      ensemble_mean env.stressModels p ≤ env.material.yield_strength / (3/2)) ∧
    ((evaluateIndividual env p).g2 ≤ 0 ↔ ensemble_mean env.deflectionModels p ≤ 1) ∧
    ((evaluateIndividual env p).g3 ≤ 0 ↔ (check_dfm_rules p).is_valid = true) := by
  refine ⟨rfl, rfl, rfl, sub_nonpos, sub_nonpos, ?_⟩
  show (if (check_dfm_rules p).is_valid then (0:ℚ) else 1) ≤ 0 ↔ _
  cases hv : (check_dfm_rules p).is_valid <;> norm_num [hv]

/-- C3 (counterexample): the claim says that in the sorted report the entry at
position k carries identifier k; on the front with masses [5, 3] the sorted
report's identifiers are [1, 0], not [0, 1]: identifiers are assigned before
sorting. -/
theorem C3_counterexample :
    (packageParetoFront [5, 3]).map ParetoEntry.id ≠
      List.range ((packageParetoFront [5, 3]).length) := by
  have hpkg : packageParetoFront [5, 3] = [⟨1, 3⟩, ⟨0, 5⟩] := by
    norm_num [packageParetoFront, sortByMass, List.insertionSort, List.orderedInsert,
      List.enum, List.enumFrom, pyRound_two_five, pyRound_two_three]
  rw [hpkg]
  decide

/-- C3 (amended): the reported Pareto-front entries are sorted ascending by
mass, and the identifiers are a permutation of 0..n−1 (each entry keeps the
identifier of its pre-sort position, so all identifiers are distinct and cover
the full range, but they need not be sequential in the sorted order). -/
theorem C3_sorted_ids_permutation (F : List ℚ) :
    (packageParetoFront F).Sorted (fun a b => a.mass ≤ b.mass) ∧
    ((packageParetoFront F).map ParetoEntry.id).Perm (List.range F.length) := by
  constructor
  · exact List.sorted_insertionSort _ _
  · have h1 := (List.perm_insertionSort (fun a b : ParetoEntry => a.mass ≤ b.mass)
      (F.enum.map (fun e => ⟨e.1, pyRound 2 e.2⟩))).map ParetoEntry.id
    refine h1.trans ?_
    rw [List.map_map]
    have h2 : (ParetoEntry.id ∘ fun e : ℕ × ℚ => ParetoEntry.mk e.1 (pyRound 2 e.2)) =
        Prod.fst := rfl
    rw [h2, List.enum_map_fst]

/-- C4 (counterexample): the claim says every failure of the sigma computation
substitutes the fixed default; but on an empty reference dataset the sigma is
set to None (no default is substituted). -/
theorem C4_counterexample :
    get_global_stress_sigma TrainingData.emptyData = none ∧
    get_global_stress_sigma TrainingData.emptyData ≠ some 5 := by
  exact ⟨rfl, by simp [get_global_stress_sigma]⟩

/-- C4 (amended): only a missing dataset file substitutes the fixed default
sigma 5.0; an empty or unreadable dataset sets the sigma to None (with a
warning); in every case the failure is non-fatal: once the material resolves,
the run completes and reports the possibly-absent sigma. -/
theorem C4_sigma_fallback (env : RunEnv) (i : RunInputs) (mat : Material)
    (hmat : env.getMaterial i.material_name = some mat) :
    get_global_stress_sigma TrainingData.missing = some 5 ∧
    get_global_stress_sigma TrainingData.emptyData = none ∧
    get_global_stress_sigma TrainingData.unreadable = none ∧
    (run_optimization env i).toOption.map RunResult.stress_sigma =
      some ((get_global_stress_sigma env.trainingData).map (pyRound 4)) := by
  refine ⟨rfl, rfl, rfl, ?_⟩
  simp [run_optimization, hmat, Except.toOption]

/-- Witness for C4 at the demo environment (material "PLA" resolves; training
dataset is empty). -/
theorem C4_sigma_fallback_witness :
    envRunDemo.getMaterial inDemo.material_name = some pla ∧
    (run_optimization envRunDemo inDemo).toOption.map RunResult.stress_sigma =
      some ((get_global_stress_sigma envRunDemo.trainingData).map (pyRound 4)) :=
  ⟨rfl, (C4_sigma_fallback envRunDemo inDemo pla rfl).2.2.2⟩

/-- C5: if the cost estimator raises for individual i of a batch, that
individual's cost is mass(kg)·cost_per_kg + 10 and the batch result still has
one output per input (no individual failure aborts the batch). -/
theorem C5_cost_fallback (env : EvalEnv) (X : List Params) (i : ℕ) (e : String)
    (hi : i < X.length)
    (hfail : env.costEstimator (X.getD i paramsDefault) = Except.error e) :
    (evaluateBatch env X).length = X.length ∧
    ((evaluateBatch env X).getD i evalOutputDefault).cost =
      (evaluateIndividual env (X.getD i paramsDefault)).mass *
        env.material.cost_per_kg / 1000 + 10 := by
  have hlen : (evaluateBatch env X).length = X.length := by
    simp [evaluateBatch]
  refine ⟨hlen, ?_⟩
  have hi2 : i < (evaluateBatch env X).length := by rw [hlen]; exact hi
  have hbatch : (evaluateBatch env X).getD i evalOutputDefault =
      evaluateIndividual env (X.getD i paramsDefault) := by
    rw [List.getD_eq_getElem _ _ hi2, List.getD_eq_getElem _ _ hi]
    simp [evaluateBatch]
  rw [hbatch]
  exact evaluateIndividual_cost_of_error env (X.getD i paramsDefault) e hfail

/-- Witness for C5: a two-individual batch whose estimator always raises. -/
theorem C5_cost_fallback_witness :
    0 < ([pDemo, pDemo] : List Params).length ∧
    envEvalFail.costEstimator (([pDemo, pDemo] : List Params).getD 0 paramsDefault) =
      Except.error "cost failed" ∧
    ((evaluateBatch envEvalFail [pDemo, pDemo]).length =
        ([pDemo, pDemo] : List Params).length ∧
      ((evaluateBatch envEvalFail [pDemo, pDemo]).getD 0 evalOutputDefault).cost =
        (evaluateIndividual envEvalFail
            (([pDemo, pDemo] : List Params).getD 0 paramsDefault)).mass *
          envEvalFail.material.cost_per_kg / 1000 + 10) :=
  ⟨by decide, rfl, C5_cost_fallback envEvalFail [pDemo, pDemo] 0 "cost failed" (by decide) rfl⟩

/-- C6: the optimization always runs with the fixed seed 42, and two runs with
identical inputs in the same environment produce identical results (including
bit-identical Pareto fronts). -/
theorem C6_determinism :
    (∀ (env : RunEnv) (a b : RunInputs), a = b →
      run_optimization env a = run_optimization env b) ∧
    optimizationSeed = 42 :=
  ⟨fun _ _ _ h => by rw [h], rfl⟩

/-- Witness for C6 at the demo environment and inputs. -/
theorem C6_determinism_witness :
    run_optimization envRunDemo inDemo = run_optimization envRunDemo inDemo ∧
    optimizationSeed = 42 :=
  ⟨C6_determinism.1 envRunDemo inDemo inDemo rfl, C6_determinism.2⟩

/-- C7: two requests whose loads agree after rounding to 4 decimals and whose
other fields agree produce the same cache key, for any digest function and any
reordering of the payload fields. -/
theorem C7_cache_key_invariance (hash : List (String × Option JsonVal) → String)
    (load₁ load₂ : ℚ) (material : String) (pop_size n_gen : ℕ)
    (fields₂ : List (String × JsonVal))
    (hround : pyRound 4 load₁ = pyRound 4 load₂)
    (hperm : fields₂.Perm (payloadFields load₂ material pop_size n_gen)) :
    hash (canonicalDump fields₂) =
      compute_request_hash hash load₁ material pop_size n_gen := by
  have hnd : (fields₂.map Prod.fst).Nodup := by
    refine ((hperm.map Prod.fst).nodup_iff).mpr ?_
    simp [payloadFields]
  have h1 : canonicalDump fields₂ =
      canonicalDump (payloadFields load₂ material pop_size n_gen) := by
    simp only [canonicalDump]
    rw [lookupKey_perm hperm hnd, lookupKey_perm hperm hnd,
        lookupKey_perm hperm hnd, lookupKey_perm hperm hnd]
  have h2 : canonicalDump (payloadFields load₂ material pop_size n_gen) =
      canonicalDump (payloadFields load₁ material pop_size n_gen) := by
    simp [canonicalDump, payloadFields, lookupKey, hround]
  rw [compute_request_hash, h1, h2]

/-- Witness for C7: loads 1/3 and 0.3333 agree after rounding to 4 decimals,
and the reversed field list is a permutation of the payload. -/
theorem C7_cache_key_invariance_witness :
    pyRound 4 (1/3 : ℚ) = pyRound 4 (3333/10000 : ℚ) ∧
    fieldsDemo.Perm (payloadFields (3333/10000) "PLA" 10 5) ∧
    hashDemo (canonicalDump fieldsDemo) =
      compute_request_hash hashDemo (1/3) "PLA" 10 5 := by
  have hr : pyRound 4 (1/3 : ℚ) = pyRound 4 (3333/10000 : ℚ) := by
    norm_num [pyRound, roundHalfToEven]
  have hp : fieldsDemo.Perm (payloadFields (3333/10000) "PLA" 10 5) :=
    (payloadFields (3333/10000) "PLA" 10 5).reverse_perm
  exact ⟨hr, hp, C7_cache_key_invariance hashDemo (1/3) (3333/10000) "PLA" 10 5 fieldsDemo hr hp⟩

/-- C8: an unreadable/corrupt cache file makes the load helper return None, and
the optimize route then behaves exactly like a cache miss: it recomputes, and
the read failure is never surfaced as an error. -/
theorem C8_corrupt_cache_is_miss (env : RunEnv) (i : RunInputs) :
    load_cached_results CacheFile.unreadable = none ∧
    handleOptimize CacheFile.unreadable env i = handleOptimize CacheFile.absent env i ∧
    handleOptimize CacheFile.unreadable env i =
      (run_optimization env i).map (fun r => ⟨false, r⟩) :=
  ⟨rfl, rfl, rfl⟩

/-- C9: for any parameter record with rib_count ≥ 0 the rib-spacing denominator
rib_count + 1 is nonzero, the spacing times the denominator recovers
base_length (the division is well defined), and the resulting DFM constraint
value g3 is the finite value 0 or 1. -/
theorem C9_rib_spacing_no_div_zero (env : EvalEnv) (p : Params) (h : 0 ≤ p.rib_count) :
    ((p.rib_count : ℚ) + 1 ≠ 0) ∧
    ribSpacing p * ((p.rib_count : ℚ) + 1) = p.base_length ∧
    ((evaluateIndividual env p).g3 = 0 ∨ (evaluateIndividual env p).g3 = 1) := by
  have h0 : (0:ℚ) ≤ (p.rib_count : ℚ) := by exact_mod_cast h
  have hpos : (0:ℚ) < (p.rib_count : ℚ) + 1 := by linarith
  refine ⟨ne_of_gt hpos, ?_, ?_⟩
  · rw [ribSpacing, div_mul_cancel₀ _ (ne_of_gt hpos)]
  · by_cases hv : (check_dfm_rules p).is_valid
    · left
      show (if (check_dfm_rules p).is_valid then (0:ℚ) else 1) = 0
      rw [if_pos hv]
    · right
      show (if (check_dfm_rules p).is_valid then (0:ℚ) else 1) = 1
      rw [if_neg hv]

/-- Witness for C9 at rib_count's lower bound 2 (Scenario D). -/
theorem C9_rib_spacing_no_div_zero_witness :
    0 ≤ pRibLow.rib_count ∧
    (((pRibLow.rib_count : ℚ) + 1 ≠ 0) ∧
     ribSpacing pRibLow * ((pRibLow.rib_count : ℚ) + 1) = pRibLow.base_length ∧
     ((evaluateIndividual envEvalDemo pRibLow).g3 = 0 ∨
      (evaluateIndividual envEvalDemo pRibLow).g3 = 1)) :=
  ⟨by decide, C9_rib_spacing_no_div_zero envEvalDemo pRibLow (by decide)⟩

/-- C10: every completed run reports n_evaluations = pop_size · n_gen,
independent of the number of evaluations the search engine actually performed. -/
theorem C10_n_evaluations (env : RunEnv) (i : RunInputs) (r : RunResult)
    (h : run_optimization env i = Except.ok r) :
    r.n_evaluations = i.pop_size * i.n_gen := by
  unfold run_optimization at h
  cases hm : env.getMaterial i.material_name with
  | none => rw [hm] at h; exact absurd h (by simp)
  | some mat =>
    rw [hm] at h
    simp only [Except.ok.injEq] at h
    rw [← h]

/-- Witness for C10: the demo run (whose search stub reports 7 actual
evaluations) completes and reports 10 · 5 evaluations. -/
theorem C10_n_evaluations_witness :
    run_optimization envRunDemo inDemo = Except.ok runResultDemo ∧
    runResultDemo.n_evaluations = inDemo.pop_size * inDemo.n_gen :=
  ⟨run_demo_eval, C10_n_evaluations envRunDemo inDemo runResultDemo run_demo_eval⟩

end ProstheticOptimizer
